import Mathlib

set_option autoImplicit false

/-!
Verification development for the topic-driven collection and enrichment
pipeline of the Real-Time-Social-Media-Analytics repository.

The Python sources are shallowly embedded as executable Lean definitions:

* `scripts/data_collector.py` — raw item mapping and per-topic collection
  (`map_v2_tweet`, `collect_tweets_for_topic`, `collect_all_topics`);
* `scripts/data_cleaner.py` — the cleaning and feature-engineering stage
  (`clean_text`, `extract_hashtags`, `calculate_engagement_metrics`,
  `add_time_features`, `clean_topic_data`), both at value level (on rows
  that carry the columns the cleaner needs) and at column-schema level
  (to model pandas `KeyError` on missing columns);
* `scripts/data_processor.py` and `scripts/sentiment_analyzer.py` —
  the two sentiment scorers;
* `main.py` — the batch orchestrator `collect_and_process_data`.

Machine integers are modelled as `Nat`, pandas floats as `ℚ`, fallible
Python code as `Except String`; `None`-able fields are `Option`s.
-/

namespace SMA

/-! ## Collector data model (`scripts/data_collector.py`) -/

/-- The `public_metrics` dict attached to a raw v2 tweet.  Each key may be
absent; `dict.get(key, 0)` supplies the default `0`. -/
structure Metrics where
  retweet_count : Option Nat
  like_count : Option Nat
  reply_count : Option Nat
  quote_count : Option Nat
deriving DecidableEq, Repr

/-- The `entities` dict of a raw v2 tweet: the hashtag tags and mention
usernames it carries. -/
structure Entities where
  hashtags : List String
  mentions : List String
deriving DecidableEq, Repr

/-- A raw item returned by the search capability, as `_map_v2_tweet`
consumes it.  Every field is optional: `none` models the attribute being
absent (for `id` and `text`, reading it raises inside the `try` block) or
the value being `None`/falsy (for `created_at`, `author_id`,
`public_metrics`, `entities`, which the source guards with truthiness and
`hasattr` checks). -/
structure RawTweet where
  id : Option Nat
  text : Option String
  created_at : Option String
  author_id : Option Nat
  public_metrics : Option Metrics
  lang : Option String
  entities : Option Entities
deriving DecidableEq, Repr

/-- The canonical record shape built by `_map_v2_tweet`
(`data_collector.py` lines 92-104): the keys of the returned dict. -/
structure Record where
  tweet_id : String
  text : String
  created_at : Option String
  author_id : Option String
  retweet_count : Nat
  like_count : Nat
  reply_count : Nat
  quote_count : Nat
  language : Option String
  hashtags : List String
  mentions : List String
deriving DecidableEq, Repr

/-- `_map_v2_tweet` (`data_collector.py` lines 89-119).  The happy path
runs when both `tweet.id` and `tweet.text` are readable; reading a missing
one raises `AttributeError`, which the `except` branch turns into the
documented fallback record (`str(getattr(tweet, 'id', 'unknown'))`,
`getattr(tweet, 'text', '')`, zero counts, empty lists, `None`
timestamp/author).  `created_at.isoformat()` is modelled as the identity
on the timestamp string; `str(tweet.author_id) if tweet.author_id else
None` keeps the Python truthiness test (`0` is falsy). -/
def map_v2_tweet (t : RawTweet) : Record :=
  match t.id, t.text with
  | some i, some txt =>
      { tweet_id := toString i
        text := txt
        created_at := t.created_at
        author_id :=
          match t.author_id with
          | some a => if a = 0 then none else some (toString a)
          | none => none
        retweet_count :=
          match t.public_metrics with
          | some m => m.retweet_count.getD 0
          | none => 0
        like_count :=
          match t.public_metrics with
          | some m => m.like_count.getD 0
          | none => 0
        reply_count :=
          match t.public_metrics with
          | some m => m.reply_count.getD 0
          | none => 0
        quote_count :=
          match t.public_metrics with
          | some m => m.quote_count.getD 0
          | none => 0
        language := t.lang
        hashtags :=
          match t.entities with
          | some e => e.hashtags
          | none => []
        mentions :=
          match t.entities with
          | some e => e.mentions
          | none => [] }
  | _, _ =>
      { tweet_id :=
          match t.id with
          | some i => toString i
          | none => "unknown"
        text := t.text.getD ""
        created_at := none
        author_id := none
        retweet_count := 0
        like_count := 0
        reply_count := 0
        quote_count := 0
        language := none
        hashtags := []
        mentions := [] }

/-- Outcome of one `client.search_recent_tweets` call, seen through the
`try`/`except` arms of the query loop (`data_collector.py` lines
131-159): a list of raw items (possibly empty, covering the falsy
`response.data` case), a `TooManyRequests` signal, or any other
exception. -/
inductive QueryResult where
  | ok (items : List RawTweet)
  | quota
  | err
deriving DecidableEq, Repr

/-- Modelled from the spec: `config/api_keys.py` is absent from the
sources; it defines `RATE_LIMITS['tweets_per_request']`, the result-count
bound the search capability accepts per fetch (spec section 6).  The
capability's standard bound of 100 results per request is used as the
concrete value. -/
def tweets_per_request : Nat := 100

/-- The per-query request count of `collect_tweets_for_topic`
(`data_collector.py` line 129):
`max(10, min(RATE_LIMITS['tweets_per_request'], count // len(queries)))`. -/
def per_query (count nqueries : Nat) : Nat :=
  max 10 (min tweets_per_request (count / nqueries))

/-- The query loop of `collect_tweets_for_topic` (`data_collector.py`
lines 131-159), abstracted over the search capability.  A successful
response extends the accumulator and the loop breaks once
`len(all_tweets) >= count`; `TooManyRequests` breaks out of the loop
keeping the accumulator; any other error skips to the next query. -/
def collectLoop (search : String → Nat → QueryResult) (pq : Nat) :
    List String → Nat → List RawTweet → List RawTweet
  | [], _, acc => acc
  | q :: rest, count, acc =>
    match search q pq with
    | .ok items =>
        let acc2 := acc ++ items
        if count ≤ acc2.length then acc2 else collectLoop search pq rest count acc2
    | .quota => acc
    | .err => collectLoop search pq rest count acc

/-- `collect_tweets_for_topic` (`data_collector.py` lines 121-177),
abstracted over the search capability and the topic configuration
(`TOPICS_CONFIG[topic].get('search_queries', [])`).  An unknown topic
raises `ValueError` in `build_search_query`, and an empty query list
raises `ZeroDivisionError` in the per-query split; both are swallowed by
the outer `except`, which returns an empty DataFrame.  Otherwise the
accumulated raw items are mapped through `map_v2_tweet` and the constant
`topic` column is attached. -/
def collect_tweets_for_topic (search : String → Nat → QueryResult)
    (config : String → Option (List String)) (topic : String) (count : Nat) :
    List (Record × String) :=
  match config topic with
  | none => []
  | some queries =>
    if queries.isEmpty then []
    else
      (collectLoop search (per_query count queries.length) queries count []).map
        (fun t => (map_v2_tweet t, topic))

/-- `collect_all_topics` (`data_collector.py` lines 215-234): collects
each configured topic independently with its configured target count. -/
def collect_all_topics (search : String → Nat → QueryResult)
    (config : String → Option (List String)) (settings : String → Nat)
    (topics : List String) : List (String × List (Record × String)) :=
  topics.map (fun t => (t, collect_tweets_for_topic search config t (settings t)))

/-! ## Cleaner value model (`scripts/data_cleaner.py`)

The cleaner is embedded at value level on rows that carry every column it
reads or writes.  A pandas row is a dynamic mapping; here the base columns
(`tweet_id`, `text`, `created_at`, the four interaction counts under the
names the cleaner reads — including `favorite_count` — and
`user_followers`) are record fields, and the derived columns the cleaner
assigns are further fields, overwritten on each run exactly as a pandas
column assignment overwrites an existing column. -/

/-- A resolved timestamp, as `pd.to_datetime` yields it; the cleaner's
`add_time_features` only reads the calendar components modelled here
(`dow` is `Series.dt.dayofweek`: 0 = Monday .. 6 = Sunday). -/
structure DateTime where
  year : Nat
  month : Nat
  day : Nat
  hour : Nat
  dow : Nat
deriving DecidableEq, Repr

/-- One row of the table `clean_topic_data` operates on: the base columns
it reads plus the derived columns it assigns (initialised to placeholder
values that every run overwrites). -/
structure ERow where
  tweet_id : String
  text : String
  created_at : DateTime
  retweet_count : Nat
  favorite_count : Nat
  reply_count : Nat
  quote_count : Nat
  user_followers : Nat
  text_cleaned : String := ""
  hashtags_extracted : List String := []
  total_engagement : ℚ := 0
  engagement_rate : ℚ := 0
  virality_score : ℚ := 0
  virality_score_normalized : ℚ := 0
  hour : Nat := 0
  day_of_week : Nat := 0
  day_name : String := ""
  month : Nat := 0
  year : Nat := 0
  date : Nat × Nat × Nat := (0, 0, 0)
  time_period : String := ""
deriving DecidableEq, Repr

/-- Python `\\w` (ASCII model): alphanumeric or underscore. -/
def isWordChar (c : Char) : Bool := c.isAlphanum || c = '_'

/-- Python `\\S`: any non-whitespace character. -/
def isNonSpace (c : Char) : Bool := !c.isWhitespace

/-- Does `re.sub(r'http\\S+|www\\S+|https\\S+', '', text)` match at the
head of `cs`?  It does when `cs` starts with `http` or `www` followed by
at least one non-space character (the `https` alternative is subsumed by
the `http` one). -/
def urlStart (cs : List Char) : Bool :=
  match cs with
  | 'h' :: 't' :: 't' :: 'p' :: c :: _ => isNonSpace c
  | 'w' :: 'w' :: 'w' :: c :: _ => isNonSpace c
  | _ => false

theorem length_dropWhile_le (p : Char → Bool) (l : List Char) :
    (l.dropWhile p).length ≤ l.length := by
  induction l with
  | nil => simp [List.dropWhile]
  | cons c rest ih =>
    simp only [List.dropWhile]
    cases p c <;> simp <;> omega

theorem urlStart_head_nonspace (c : Char) (rest : List Char)
    (h : urlStart (c :: rest) = true) : isNonSpace c = true := by
  unfold urlStart at h
  split at h
  · rename_i c2 tl heq
    simp only [List.cons.injEq] at heq
    obtain ⟨rfl, -⟩ := heq
    decide
  · rename_i c2 tl heq
    simp only [List.cons.injEq] at heq
    obtain ⟨rfl, -⟩ := heq
    decide
  · simp at h

theorem urlStart_drop_lt (c : Char) (rest : List Char)
    (h : urlStart (c :: rest) = true) :
    ((c :: rest).dropWhile isNonSpace).length < (c :: rest).length := by
  have hc := urlStart_head_nonspace c rest h
  have hlen := length_dropWhile_le isNonSpace rest
  simp only [List.dropWhile, hc]
  simp; omega

/-- URL removal: each leftmost match of `http\\S+|www\\S+|https\\S+`
consumes the maximal run of non-space characters starting at the match
(the prefix itself is non-space, so the whole run from the match start is
consumed), and scanning resumes after it. -/
def stripUrls : List Char → List Char
  | [] => []
  | c :: rest =>
    if h : urlStart (c :: rest) = true then
      stripUrls ((c :: rest).dropWhile isNonSpace)
    else c :: stripUrls rest
termination_by cs => cs.length
decreasing_by
  · exact urlStart_drop_lt c rest h
  · simp

/-- One step of `' '.join(text.split())`: fold that collapses every
whitespace run into one space and drops a trailing run. -/
def collapseStep (c : Char) (acc : List Char) : List Char :=
  if c.isWhitespace then
    match acc with
    | [] => []
    | a :: _ => if a = ' ' then acc else ' ' :: acc
  else c :: acc

/-- `' '.join(text.split())` followed by `.strip()`: collapse whitespace
runs to single spaces and strip both ends. -/
def collapseWs (cs : List Char) : List Char :=
  (cs.foldr collapseStep []).dropWhile (fun c => c = ' ')

/-- `clean_text` (`data_cleaner.py` lines 40-62): remove URLs, remove the
characters outside `\\w`, whitespace, `#`, `@`, then collapse whitespace
and strip.  (The `pd.isna` guard has no counterpart: the embedded `text`
column is a string.) -/
def clean_text (text : String) : String :=
  let noUrls := stripUrls text.toList
  let kept := noUrls.filter (fun c => isWordChar c || c.isWhitespace || c = '#' || c = '@')
  (collapseWs kept).asString

/-- `re.findall(r'#\\w+', text)`: scan for `#` followed by at least one
word character; each match is the `#` plus the maximal word-character
run, and scanning resumes after the match. -/
def findHashtags : List Char → List String
  | [] => []
  | c :: rest =>
    if c = '#' then
      match rest.takeWhile isWordChar with
      | [] => findHashtags rest
      | tag => ('#' :: tag).asString :: findHashtags (rest.dropWhile isWordChar)
    else findHashtags rest
termination_by cs => cs.length
decreasing_by
  · simp
  · have := length_dropWhile_le isWordChar rest
    simp; omega
  · simp

/-- `extract_hashtags` (`data_cleaner.py` lines 64-78): the `#`-prefixed
tokens of the text, lower-cased. -/
def extract_hashtags (text : String) : List String :=
  (findHashtags text.toList).map (fun s => s.toLower)

/-- `DATA_PROCESSING` toggles from `config/setting.py`. -/
def remove_duplicates_enabled : Bool := true

/-- `DATA_PROCESSING['clean_text']` from `config/setting.py`. -/
def clean_text_enabled : Bool := true

/-- `DATA_PROCESSING['extract_hashtags']` from `config/setting.py`. -/
def extract_hashtags_enabled : Bool := true

/-- `DATA_PROCESSING['calculate_engagement']` from `config/setting.py`. -/
def calculate_engagement_enabled : Bool := true

/-- `df.drop_duplicates(subset=['tweet_id'])`: keep the first occurrence
of each identifier, tracking the identifiers already seen. -/
def dedup_aux (seen : List String) : List ERow → List ERow
  | [] => []
  | r :: rest =>
    if r.tweet_id ∈ seen then dedup_aux seen rest
    else r :: dedup_aux (r.tweet_id :: seen) rest

/-- Deduplication by `tweet_id`, first occurrence kept
(`data_cleaner.py` line 185). -/
def dedupById (rows : List ERow) : List ERow := dedup_aux [] rows

/-- `total_engagement` (`data_cleaner.py` lines 91-96): the raw sum
`retweet_count + favorite_count + quote_count + reply_count`. -/
def totalEngagement (r : ERow) : ℚ :=
  (r.retweet_count : ℚ) + r.favorite_count + r.quote_count + r.reply_count

/-- `df['user_followers'].replace(0, 1)` (`data_cleaner.py` line 101). -/
def followersDivisor (r : ERow) : ℚ :=
  if r.user_followers = 0 then 1 else r.user_followers

/-- `virality_score` (`data_cleaner.py` lines 104-110):
`retweet_count*3 + favorite_count*1 + quote_count*2 + reply_count*1.5`. -/
def viralityScore (r : ERow) : ℚ :=
  (r.retweet_count : ℚ) * 3 + r.favorite_count * 1 + r.quote_count * 2
    + r.reply_count * (3 / 2)

/-- Maximum of a list of rationals against the base 0
(`Series.max` over a column of non-negative scores). -/
def qmax (l : List ℚ) : ℚ := l.foldr max 0

/-- `df['virality_score'].max()` over the batch. -/
def batchMaxVirality (rows : List ERow) : ℚ := qmax (rows.map viralityScore)

/-- The per-row assignments of `calculate_engagement_metrics`
(`data_cleaner.py` lines 80-120), with `m` the batch maximum virality:
`total_engagement`, `engagement_rate = total_engagement /
followers.replace(0,1) * 100`, `virality_score`, and
`virality_score_normalized = virality_score / max * 100` when the batch
maximum is positive, else 0. -/
def applyEngagement (m : ℚ) (r : ERow) : ERow :=
  { r with
    total_engagement := totalEngagement r
    engagement_rate := totalEngagement r / followersDivisor r * 100
    virality_score := viralityScore r
    virality_score_normalized := if 0 < m then viralityScore r / m * 100 else 0 }

/-- `calculate_engagement_metrics` (`data_cleaner.py` lines 80-120). -/
def calculate_engagement_metrics (rows : List ERow) : List ERow :=
  rows.map (applyEngagement (batchMaxVirality rows))

/-- `categorize_time_period` (`data_cleaner.py` lines 147-164). -/
def categorize_time_period (hour : Nat) : String :=
  if 5 ≤ hour ∧ hour < 12 then "Morning"
  else if 12 ≤ hour ∧ hour < 17 then "Afternoon"
  else if 17 ≤ hour ∧ hour < 21 then "Evening"
  else "Night"

/-- `Series.dt.day_name()` for pandas `dayofweek` values 0-6. -/
def dayName (d : Nat) : String :=
  match d with
  | 0 => "Monday"
  | 1 => "Tuesday"
  | 2 => "Wednesday"
  | 3 => "Thursday"
  | 4 => "Friday"
  | 5 => "Saturday"
  | _ => "Sunday"

/-- The per-row assignments of `add_time_features` (`data_cleaner.py`
lines 122-145); `pd.to_datetime` on the already-resolved `created_at`
column is the identity. -/
def applyTime (r : ERow) : ERow :=
  { r with
    hour := r.created_at.hour
    day_of_week := r.created_at.dow
    day_name := dayName r.created_at.dow
    month := r.created_at.month
    year := r.created_at.year
    date := (r.created_at.year, r.created_at.month, r.created_at.day)
    time_period := categorize_time_period r.created_at.hour }

/-- `add_time_features` (`data_cleaner.py` lines 122-145). -/
def add_time_features (rows : List ERow) : List ERow := rows.map applyTime

/-- `clean_topic_data` (`data_cleaner.py` lines 166-214): early return on
an empty table, then deduplication, text cleaning, hashtag extraction,
engagement metrics and time features, then the empty-text filter and the
two follower-count filters. -/
def clean_topic_data (rows : List ERow) : List ERow :=
  if rows.isEmpty then rows
  else
    let r1 := if remove_duplicates_enabled then dedupById rows else rows
    let r2 := if clean_text_enabled then
        r1.map (fun r => { r with text_cleaned := clean_text r.text }) else r1
    let r3 := if extract_hashtags_enabled then
        r2.map (fun r => { r with hashtags_extracted := extract_hashtags r.text }) else r2
    let r4 := if calculate_engagement_enabled then calculate_engagement_metrics r3 else r3
    let r5 := add_time_features r4
    let r6 := r5.filter (fun r => 0 < r.text_cleaned.length)
    let r7 := r6.filter (fun r => 0 < r.user_followers)
    r7.filter (fun r => r.user_followers < 1000000)

/-! ## Cleaner column-schema model

pandas raises `KeyError` when a statement reads a column the DataFrame
does not have.  The schema model replays `clean_topic_data`'s column
reads and writes, in source order, over the list of column names, so
that missing-column errors become `Except.error`.  Reads are guarded by
`requireColumn`; assignments add the column name if new (a pandas column
assignment overwrites in place, never duplicates). -/

/-- Guard for a pandas column read: `KeyError` when absent. -/
def requireColumn (cols : List String) (c : String) : Except String Unit :=
  if c ∈ cols then Except.ok () else Except.error ("KeyError: " ++ c)

/-- A pandas column assignment: overwrites in place, appends if new. -/
def addColumn (cols : List String) (c : String) : List String :=
  if c ∈ cols then cols else cols ++ [c]

/-- The columns of the DataFrame built by `collect_tweets_for_topic`
(`data_collector.py` lines 161-170): the keys of the dict returned by
`_map_v2_tweet` plus the `topic` and `collection_timestamp` columns. -/
def collector_columns : List String :=
  ["tweet_id", "text", "created_at", "author_id", "retweet_count",
   "like_count", "reply_count", "quote_count", "language", "hashtags",
   "mentions", "topic", "collection_timestamp"]

/-- Column reads and writes of `calculate_engagement_metrics`
(`data_cleaner.py` lines 80-120), in source order. -/
def calculate_engagement_metrics_schema (cols : List String) :
    Except String (List String) := do
  requireColumn cols "retweet_count"
  requireColumn cols "favorite_count"
  requireColumn cols "quote_count"
  requireColumn cols "reply_count"
  let cols := addColumn cols "total_engagement"
  requireColumn cols "total_engagement"
  requireColumn cols "user_followers"
  let cols := addColumn cols "engagement_rate"
  requireColumn cols "retweet_count"
  requireColumn cols "favorite_count"
  requireColumn cols "quote_count"
  requireColumn cols "reply_count"
  let cols := addColumn cols "virality_score"
  requireColumn cols "virality_score"
  let cols := addColumn cols "virality_score_normalized"
  return cols

/-- Column reads and writes of `add_time_features` (`data_cleaner.py`
lines 122-145), in source order. -/
def add_time_features_schema (cols : List String) :
    Except String (List String) := do
  requireColumn cols "created_at"
  let cols := addColumn cols "hour"
  let cols := addColumn cols "day_of_week"
  let cols := addColumn cols "day_name"
  let cols := addColumn cols "month"
  let cols := addColumn cols "year"
  let cols := addColumn cols "date"
  requireColumn cols "hour"
  let cols := addColumn cols "time_period"
  return cols

/-- Column reads and writes of `clean_topic_data` (`data_cleaner.py`
lines 166-214), in source order, over a table with columns `cols`;
`nonempty` is the `df.empty` early-return guard. -/
def clean_topic_data_schema (nonempty : Bool) (cols : List String) :
    Except String (List String) := do
  if !nonempty then return cols
  let cols ← do
    if remove_duplicates_enabled then
      requireColumn cols "tweet_id"
      pure cols
    else pure cols
  let cols ← do
    if clean_text_enabled then
      requireColumn cols "text"
      pure (addColumn cols "text_cleaned")
    else pure cols
  let cols ← do
    if extract_hashtags_enabled then
      requireColumn cols "text"
      pure (addColumn cols "hashtags_extracted")
    else pure cols
  let cols ← do
    if calculate_engagement_enabled then calculate_engagement_metrics_schema cols
    else pure cols
  let cols ← add_time_features_schema cols
  requireColumn cols "text_cleaned"
  requireColumn cols "user_followers"
  requireColumn cols "user_followers"
  return cols

/-- A table seen at schema level: whether it is non-empty, and its
columns.  `pd.DataFrame()` is `(false, [])`. -/
abbrev SchemaTable := Bool × List String

/-- `clean_all_topics` (`data_cleaner.py` lines 216-237): cleans each
topic's table; an exception while cleaning one topic is caught and that
topic gets an empty DataFrame. -/
def clean_all_topics (raw : List (String × SchemaTable)) :
    List (String × SchemaTable) :=
  raw.map (fun e =>
    (e.1,
      match clean_topic_data_schema e.2.1 e.2.2 with
      | .ok cols => (e.2.1, cols)
      | .error _ => ((false : Bool), ([] : List String))))

/-! ## Batch orchestrator (`main.py`) -/

/-- A Python value passed as an argument in `main.py`: the topic string
or a DataFrame. -/
inductive PyVal where
  | pyStr (s : String)
  | pyTable (t : SchemaTable)
deriving DecidableEq, Repr

/-- `cleaner.clean_topic_data` as invoked from Python: its first
parameter `df` is immediately used as `df.empty` (`data_cleaner.py` line
177), which raises `AttributeError` when a string is passed there. -/
def clean_topic_data_py (df : PyVal) (_topic : PyVal) : Except String SchemaTable :=
  match df with
  | .pyStr _ => .error "AttributeError: str has no attribute empty"
  | .pyTable t => do
      let cols ← clean_topic_data_schema t.1 t.2
      pure (t.1, cols)

/-- The per-topic file-path entries accumulated by
`collect_and_process_data` (`main.py` line 41). -/
structure RunResults where
  raw_files : List String
  cleaned_files : List String
  tableau_files : List String
  sentiment_files : List String
deriving DecidableEq, Repr

/-- The body of the per-topic `try` block of `collect_and_process_data`
(`main.py` lines 53-88), with `collect topic` telling whether the
collected DataFrame is non-empty (its columns are always
`collector_columns`).  An empty collection `continue`s; otherwise the
raw file is saved, and the clean stage is invoked as
`cleaner.clean_topic_data(topic, df_raw)` — the topic string in the `df`
position — whose exception is caught by the per-topic handler, skipping
the remaining stages for that topic. -/
def process_topic (collect : String → Bool) (res : RunResults) (topic : String) :
    RunResults :=
  if collect topic = false then res
  else
    let res := { res with raw_files := res.raw_files ++ [topic] }
    match clean_topic_data_py (.pyStr topic) (.pyTable (true, collector_columns)) with
    | .error _ => res
    | .ok _ =>
        { res with
          cleaned_files := res.cleaned_files ++ [topic]
          tableau_files := res.tableau_files ++ [topic]
          sentiment_files := res.sentiment_files ++ [topic] }

/-- `collect_and_process_data` (`main.py` lines 37-90) over the
(possibly shuffled) topic list. -/
def collect_and_process_data (collect : String → Bool) (topics : List String) :
    RunResults :=
  topics.foldl (process_topic collect) ⟨[], [], [], []⟩

/-! ## Sentiment scorers (`scripts/data_processor.py`,
`scripts/sentiment_analyzer.py`) -/

/-- A Python value handed to a sentiment scorer: `None`, a non-string
(with its truthiness), or a string. -/
inductive PyText where
  | null
  | nonString (truthy : Bool)
  | str (s : String)
deriving DecidableEq, Repr

/-- Python truthiness of a `PyText` (`""` is falsy). -/
def pyTruthy : PyText → Bool
  | .null => false
  | .nonString t => t
  | .str s => !(s = "")

/-- A value returned by a sentiment scorer: the processor's dict
`{'polarity': _, 'subjectivity': _, 'sentiment_label': _}` or the
standalone analyzer's 2-tuple `(polarity, label)`. -/
inductive SentValue where
  | dict (polarity subjectivity : ℚ) (label : String)
  | pair (polarity : ℚ) (label : String)
deriving DecidableEq, Repr

/-- Whether a scorer's return value carries a subjectivity component
equal to `q`: a 2-tuple has none. -/
def hasSubjectivity (v : SentValue) (q : ℚ) : Prop :=
  match v with
  | .dict _ s _ => s = q
  | .pair _ _ => False

/-- `TwitterDataProcessor.analyze_sentiment` (`data_processor.py` lines
80-104), abstracted over the TextBlob lexical scorer `blob` (polarity,
subjectivity).  Falsy input short-circuits to the neutral default;
calling TextBlob on a truthy non-string raises `TypeError`, which the
bare `except` turns into the same default. -/
def processor_analyze_sentiment (blob : String → ℚ × ℚ) (t : PyText) : SentValue :=
  if pyTruthy t = false then .dict 0 0 "neutral"
  else
    match t with
    | .str s =>
        let p := (blob s).1
        .dict p (blob s).2
          (if p > 1 / 10 then "positive"
           else if p < -(1 / 10) then "negative" else "neutral")
    | _ => .dict 0 0 "neutral"

/-- Python `str.strip()`: drop leading and trailing whitespace. -/
def pyStrip (s : String) : String :=
  (((s.toList.dropWhile Char.isWhitespace).reverse.dropWhile
      Char.isWhitespace).reverse).asString

/-- `TwitterSentimentAnalyzer.analyze_sentiment`
(`sentiment_analyzer.py` lines 22-31): non-strings and
whitespace-only strings yield `(0.0, 'neutral')`; otherwise the TextBlob
polarity is labelled with the same ±0.1 thresholds.  The return value is
a 2-tuple — it has no subjectivity component. -/
def tsa_analyze_sentiment (blob : String → ℚ × ℚ) (t : PyText) : SentValue :=
  match t with
  | .str s =>
      if pyStrip s = "" then .pair 0 "neutral"
      else
        let p := (blob s).1
        .pair p
          (if p > 1 / 10 then "positive"
           else if p < -(1 / 10) then "negative" else "neutral")
  | _ => .pair 0 "neutral"

/-! ## General helper lemmas -/

theorem toDigitsCore_len (b : Nat) : ∀ (fuel n : Nat) (acc : List Char),
    acc.length ≤ (Nat.toDigitsCore b fuel n acc).length := by
  intro fuel
  induction fuel with
  | zero => intro n acc; simp [Nat.toDigitsCore]
  | succ f ih =>
    intro n acc
    simp only [Nat.toDigitsCore]
    split
    · simp
    · have := ih (n / b) (Nat.digitChar (n % b) :: acc)
      simp at this ⊢
      omega

theorem toString_nat_ne_empty (n : Nat) : toString n ≠ "" := by
  show Nat.repr n ≠ ""
  unfold Nat.repr Nat.toDigits
  simp only [Nat.toDigitsCore]
  split
  · intro h
    have hd := congrArg String.data h
    simp [List.asString] at hd
  · intro h
    have hd := congrArg String.data h
    simp only [List.asString] at hd
    have hlen := toDigitsCore_len 10 n (n / 10) [Nat.digitChar (n % 10)]
    rw [hd] at hlen
    simp at hlen

/-! ## Claim C1 — the defensive item mapping -/

/-- Claim C1: for every raw item, including one with an absent metrics
object, null timestamp, null entity list, null author or unreadable
id/text, `map_v2_tweet` returns a record (it is total, hence never
raises) whose bad fields take the documented defaults — zero counts,
empty hashtag and mention lists, null timestamp, null author — and whose
identifier is non-empty; and the batch mapping of
`collect_tweets_for_topic` maps accumulated items one-to-one, so a
corrupt item never shrinks the batch. -/
theorem c1_defensive_mapping :
    (∀ t : RawTweet,
      (t.public_metrics = none →
        (map_v2_tweet t).retweet_count = 0 ∧ (map_v2_tweet t).like_count = 0 ∧
        (map_v2_tweet t).reply_count = 0 ∧ (map_v2_tweet t).quote_count = 0) ∧
      (t.created_at = none → (map_v2_tweet t).created_at = none) ∧
      (t.author_id = none → (map_v2_tweet t).author_id = none) ∧
      (t.entities = none →
        (map_v2_tweet t).hashtags = [] ∧ (map_v2_tweet t).mentions = []) ∧
      (map_v2_tweet t).tweet_id ≠ "") ∧
    (∀ (search : String → Nat → QueryResult) (config : String → Option (List String))
        (topic : String) (count : Nat) (queries : List String),
      config topic = some queries → queries.isEmpty = false →
      (collect_tweets_for_topic search config topic count).length =
        (collectLoop search (per_query count queries.length) queries count []).length) := by
  constructor
  · intro t
    obtain ⟨id, text, ca, aid, pm, lg, ent⟩ := t
    cases id <;> cases text <;>
      refine ⟨fun h => ?_, fun h => ?_, fun h => ?_, fun h => ?_, ?_⟩ <;>
      first
        | (subst h; simp [map_v2_tweet])
        | simp [map_v2_tweet, toString_nat_ne_empty]
  · intro search config topic count queries h1 h2
    simp [collect_tweets_for_topic, h1, h2]

/-- Witness for C1 at a fully malformed item: every field absent. -/
theorem c1_defensive_mapping_witness :
    (map_v2_tweet ⟨none, none, none, none, none, none, none⟩).retweet_count = 0 ∧
    (map_v2_tweet ⟨none, none, none, none, none, none, none⟩).created_at = none ∧
    (map_v2_tweet ⟨none, none, none, none, none, none, none⟩).hashtags = [] ∧
    (map_v2_tweet ⟨none, none, none, none, none, none, none⟩).tweet_id ≠ "" := by
  have h := c1_defensive_mapping.1 ⟨none, none, none, none, none, none, none⟩
  exact ⟨(h.1 rfl).1, h.2.1 rfl, (h.2.2.2.1 rfl).1, h.2.2.2.2⟩

/-! ## Claim C2 — the rate-limit policy -/

/-- A well-formed raw item used by the concrete scenarios. -/
def mkRaw (i : Nat) : RawTweet :=
  ⟨some i, some "hello", none, none, none, none, none⟩

/-- The six items served by the first sports query of the C2 scenario. -/
def sportsItems : List RawTweet := (List.range 6).map (fun i => mkRaw (i + 1))

/-- The single item served for the second topic of the C2 scenario. -/
def newsItem : RawTweet := mkRaw 7

/-- Scenario topic configuration: `sports` has 2 queries, `news` has 1. -/
def scTopics : String → Option (List String) := fun t =>
  if t = "sports" then some ["sq1", "sq2"]
  else if t = "news" then some ["nq1"] else none

/-- Scenario search capability: the first sports query yields 6 items,
the second signals over-quota, the news query yields one item. -/
def scSearch : String → Nat → QueryResult := fun q _ =>
  if q = "sq1" then .ok sportsItems
  else if q = "sq2" then .quota
  else if q = "nq1" then .ok [newsItem] else .ok []

/-- Claim C2: a query signalling over-quota makes `collect_tweets_for_topic`
abandon the remaining queries of that topic without retrying or raising,
returning the records accumulated so far; in the scenario — a topic with
2 queries, `target_count` 10, first query yielding 6 items and the second
over-quota — the result is exactly those 6 records, and another topic
still collects normally. -/
theorem c2_quota_policy :
    (∀ (search : String → Nat → QueryResult) (pq count : Nat) (q : String)
        (rest : List String) (acc : List RawTweet),
      search q pq = QueryResult.quota →
      collectLoop search pq (q :: rest) count acc = acc) ∧
    collect_tweets_for_topic scSearch scTopics "sports" 10 =
      sportsItems.map (fun t => (map_v2_tweet t, "sports")) ∧
    (collect_tweets_for_topic scSearch scTopics "sports" 10).length = 6 ∧
    collect_all_topics scSearch scTopics (fun _ => 10) ["sports", "news"] =
      [("sports", sportsItems.map (fun t => (map_v2_tweet t, "sports"))),
       ("news", [(map_v2_tweet newsItem, "news")])] := by
  refine ⟨?_, by decide, by decide, by decide⟩
  intro search pq count q rest acc h
  simp [collectLoop, h]

/-- Witness for C2's general quota conjunct at the concrete scenario. -/
theorem c2_quota_policy_witness :
    collectLoop scSearch 10 ["sq2", "sq1"] 10 sportsItems = sportsItems :=
  c2_quota_policy.1 scSearch 10 10 "sq2" ["sq1"] sportsItems (by decide)

/-! ## Claim C10 — the result-size bound -/

/-- Two queries of ten items each, used to overshoot `target_count` 15. -/
def bigSearch : String → Nat → QueryResult := fun q _ =>
  if q = "e1" then .ok ((List.range 10).map mkRaw)
  else .ok ((List.range 10).map (fun i => mkRaw (i + 10)))

theorem collectLoop_length_lt (search : String → Nat → QueryResult)
    (pq count : Nat)
    (hcap : ∀ q r, search q pq = QueryResult.ok r → r.length ≤ pq) :
    ∀ (qs : List String) (acc : List RawTweet), acc.length < count →
      (collectLoop search pq qs count acc).length < count + pq := by
  intro qs
  induction qs with
  | nil =>
    intro acc hacc
    simp only [collectLoop]
    omega
  | cons q rest ih =>
    intro acc hacc
    simp only [collectLoop]
    cases hsr : search q pq with
    | ok items =>
      have hlen := hcap q items hsr
      show (if count ≤ (acc ++ items).length then acc ++ items
            else collectLoop search pq rest count (acc ++ items)).length < count + pq
      by_cases hc : count ≤ (acc ++ items).length
      · rw [if_pos hc]
        simp at hc ⊢
        omega
      · rw [if_neg hc]
        exact ih _ (by simp at hc ⊢; omega)
    | quota =>
      show acc.length < count + pq
      omega
    | err =>
      show (collectLoop search pq rest count acc).length < count + pq
      exact ih acc hacc

/-- Claim C10: the accumulated-count check runs only after a whole query
response is appended, so the result is never truncated back to
`target_count` and can exceed it — witnessed by a run returning 20
records for `target_count` 15 — while its size always stays strictly
below `target_count` plus the per-query request bound. -/
theorem c10_overshoot_bound :
    (∀ (search : String → Nat → QueryResult) (pq count : Nat) (qs : List String),
      1 ≤ count →
      (∀ q r, search q pq = QueryResult.ok r → r.length ≤ pq) →
      (collectLoop search pq qs count []).length < count + pq) ∧
    (collectLoop bigSearch 10 ["e1", "e2"] 15 []).length = 20 ∧
    15 < (collectLoop bigSearch 10 ["e1", "e2"] 15 []).length := by
  refine ⟨?_, by decide, by decide⟩
  intro search pq count qs h1 h2
  exact collectLoop_length_lt search pq count h2 qs [] (by simpa using h1)

/-- Witness for C10's bound at the concrete overshooting run. -/
theorem c10_overshoot_bound_witness :
    (collectLoop bigSearch 10 ["e1", "e2"] 16 []).length < 16 + 10 := by
  refine c10_overshoot_bound.1 bigSearch 10 16 ["e1", "e2"] (by decide) ?_
  intro q r h
  simp only [bigSearch] at h
  split at h <;> (simp only [QueryResult.ok.injEq] at h; subst h; simp)

/-! ## Claim C6 — the per-query request count -/

/-- Counterexample to claim C6: for `target_count` 1000 and 2 queries the
even split is 500, but the request count is capped at
`tweets_per_request` = 100 — strictly below the even split, which the
claim (even split, except raised by a floor) forbids. -/
theorem c6_counterexample :
    per_query 1000 2 = 100 ∧ per_query 1000 2 < 1000 / 2 := by decide

/-- Claim C6 as amended: for a topic with at least one query, the
per-query request count is `max(10, min(tweets_per_request,
target_count // nqueries))` — the even split, raised to the floor 10 when
the split is below it, and lowered to the configured per-request cap when
the split exceeds it; it is always at least 1 (indeed at least 10). -/
theorem c6_per_query_split (count n : Nat) (h : 1 ≤ n) :
    1 ≤ per_query count n ∧ 10 ≤ per_query count n ∧
    (count / n < 10 → per_query count n = 10) ∧
    (10 ≤ count / n → count / n ≤ tweets_per_request →
      per_query count n = count / n) ∧
    (tweets_per_request < count / n → per_query count n = tweets_per_request) := by
  unfold per_query tweets_per_request
  omega

/-- Witness for C6's amended statement at `target_count` 40 over 2
queries: the even split 20 lies between floor and cap and is used. -/
theorem c6_per_query_split_witness :
    1 ≤ 2 ∧ per_query 40 2 = 40 / 2 :=
  ⟨by decide, (c6_per_query_split 40 2 (by decide)).2.2.2.1 (by decide) (by decide)⟩

/-! ## Claim C7 — sentiment defaults on null/empty input -/

/-- Counterexample to claim C7: on empty text the standalone analyzer
returns the 2-tuple `(0.0, 'neutral')`, which carries no subjectivity
component at all — so it does not return subjectivity 0.0 as the claim
states for both scorers. -/
theorem c7_counterexample :
    ¬ hasSubjectivity (tsa_analyze_sentiment (fun _ => (0, 0)) (PyText.str "")) 0 := by
  intro h
  exact h

/-- Claim C7 as amended: on null, non-string or empty input, the
processor's `analyze_sentiment` returns polarity 0.0, subjectivity 0.0
and label `neutral`, and the standalone analyzer's `analyze_sentiment`
returns polarity 0.0 and label `neutral` (its result is a
`(polarity, label)` pair with no subjectivity component); neither ever
raises, whatever the lexical scorer does. -/
theorem c7_sentiment_defaults (blob : String → ℚ × ℚ) (t : PyText)
    (h : t = PyText.null ∨ (∃ b, t = PyText.nonString b) ∨ t = PyText.str "") :
    processor_analyze_sentiment blob t = SentValue.dict 0 0 "neutral" ∧
    tsa_analyze_sentiment blob t = SentValue.pair 0 "neutral" := by
  rcases h with rfl | ⟨b, rfl⟩ | rfl
  · exact ⟨rfl, rfl⟩
  · cases b <;> exact ⟨rfl, rfl⟩
  · exact ⟨rfl, rfl⟩

/-- Witness for C7's amended statement at the empty string. -/
theorem c7_sentiment_defaults_witness :
    processor_analyze_sentiment (fun _ => (0, 0)) (PyText.str "") =
      SentValue.dict 0 0 "neutral" ∧
    tsa_analyze_sentiment (fun _ => (0, 0)) (PyText.str "") =
      SentValue.pair 0 "neutral" :=
  c7_sentiment_defaults (fun _ => (0, 0)) (PyText.str "") (Or.inr (Or.inr rfl))

/-! ## Claim C3 — the collector/cleaner column mismatch -/

/-- Claim C3: the collector's tables carry `like_count` but neither
`favorite_count` nor `user_followers`, so on any non-empty collected
table `clean_topic_data` raises a missing-column `KeyError` in the
engagement-metric step, and `clean_all_topics` therefore maps every topic
with a non-empty collected table to an empty table. -/
theorem c3_collector_cleaner_mismatch :
    clean_topic_data_schema true collector_columns =
      Except.error "KeyError: favorite_count" ∧
    ∀ (entries : List (String × SchemaTable)) (e : String × SchemaTable),
      e ∈ entries → e.2 = (true, collector_columns) →
      (e.1, ((false : Bool), ([] : List String))) ∈ clean_all_topics entries := by
  refine ⟨by rfl, ?_⟩
  intro entries e he h2
  unfold clean_all_topics
  refine List.mem_map.mpr ⟨e, he, ?_⟩
  rw [show e.2.1 = true from by rw [h2], show e.2.2 = collector_columns from by rw [h2]]
  rfl

/-- Witness for C3 at a one-topic batch. -/
theorem c3_collector_cleaner_mismatch_witness :
    ("technology", ((false : Bool), ([] : List String))) ∈
      clean_all_topics [("technology", (true, collector_columns))] :=
  c3_collector_cleaner_mismatch.2 [("technology", (true, collector_columns))]
    ("technology", (true, collector_columns)) (List.mem_singleton.mpr rfl) rfl

/-! ## Claim C9 — the swapped arguments in the batch orchestrator -/

theorem process_topic_eq (collect : String → Bool) (res : RunResults) (t : String) :
    process_topic collect res t =
      if collect t then { res with raw_files := res.raw_files ++ [t] } else res := by
  unfold process_topic
  cases h : collect t <;> simp [h, clean_topic_data_py]

theorem collect_run_foldl (collect : String → Bool) :
    ∀ (topics : List String) (res : RunResults),
      topics.foldl (process_topic collect) res =
        { res with raw_files := res.raw_files ++ topics.filter collect } := by
  intro topics
  induction topics with
  | nil => intro res; simp
  | cons t ts ih =>
    intro res
    simp only [List.foldl_cons, ih, process_topic_eq]
    cases h : collect t <;> simp [h, List.filter_cons]

/-- Claim C9: in `collect_and_process_data` the clean stage is invoked
with its arguments swapped (`clean_topic_data(topic, df_raw)`), so it
raises on every topic whose collected table is non-empty; the per-topic
handler catches the exception and the run continues, but the results
carry no cleaned, tableau or sentiment entries — only raw files, one per
topic whose collection was non-empty. -/
theorem c9_swapped_clean_arguments (collect : String → Bool) (topics : List String) :
    (collect_and_process_data collect topics).cleaned_files = [] ∧
    (collect_and_process_data collect topics).tableau_files = [] ∧
    (collect_and_process_data collect topics).sentiment_files = [] ∧
    (collect_and_process_data collect topics).raw_files = topics.filter collect := by
  unfold collect_and_process_data
  rw [collect_run_foldl]
  simp

/-! ## Claims C4 and C5 — engagement metric formulas -/

theorem qmax_nonneg (l : List ℚ) : 0 ≤ qmax l := by
  induction l with
  | nil => simp [qmax]
  | cons x t ih =>
    simp only [qmax, List.foldr_cons] at ih ⊢
    exact le_trans ih (le_max_right x _)

theorem le_qmax (l : List ℚ) (x : ℚ) (h : x ∈ l) : x ≤ qmax l := by
  induction l with
  | nil => simp at h
  | cons y t ih =>
    simp only [qmax, List.foldr_cons]
    rcases List.mem_cons.mp h with rfl | hm
    · exact le_max_left _ _
    · exact le_trans (ih hm) (le_max_right _ _)

theorem qmax_le (l : List ℚ) (c : ℚ) (h0 : 0 ≤ c) (h : ∀ x ∈ l, x ≤ c) :
    qmax l ≤ c := by
  induction l with
  | nil => simpa [qmax] using h0
  | cons y t ih =>
    simp only [qmax, List.foldr_cons]
    exact max_le (h y (by simp)) (ih (fun x hx => h x (by simp [hx])))

theorem qmax_mem (l : List ℚ) (h : 0 < qmax l) : qmax l ∈ l := by
  induction l with
  | nil => simp [qmax] at h
  | cons y t ih =>
    simp only [qmax, List.foldr_cons] at h ⊢
    rcases max_cases y (qmax t) with ⟨heq, -⟩ | ⟨heq, -⟩ <;>
      rw [show List.foldr max 0 t = qmax t from rfl] at *
    · rw [heq]; exact List.mem_cons_self _ _
    · rw [heq] at h ⊢
      exact List.mem_cons_of_mem _ (ih h)

theorem qmax_mul (l : List ℚ) (c : ℚ) (hc : 0 ≤ c) :
    qmax (l.map (fun x => x * c)) = qmax l * c := by
  induction l with
  | nil => simp [qmax]
  | cons y t ih =>
    simp only [qmax, List.map_cons, List.foldr_cons] at ih ⊢
    rw [ih, max_mul_of_nonneg _ _ hc]

theorem viralityScore_nonneg (r : ERow) : 0 ≤ viralityScore r := by
  unfold viralityScore
  positivity

theorem one_le_viralityScore_of_pos (r : ERow) (h : 0 < viralityScore r) :
    1 ≤ viralityScore r := by
  unfold viralityScore at h ⊢
  have h1 : (0 : ℚ) ≤ r.retweet_count := Nat.cast_nonneg _
  have h2 : (0 : ℚ) ≤ r.favorite_count := Nat.cast_nonneg _
  have h3 : (0 : ℚ) ≤ r.quote_count := Nat.cast_nonneg _
  have h4 : (0 : ℚ) ≤ r.reply_count := Nat.cast_nonneg _
  by_cases hr : r.retweet_count = 0
  · by_cases hf : r.favorite_count = 0
    · by_cases hq : r.quote_count = 0
      · by_cases hp : r.reply_count = 0
        · rw [hr, hf, hq, hp] at h; norm_num at h
        · have : (1 : ℚ) ≤ r.reply_count := by
            exact_mod_cast Nat.one_le_iff_ne_zero.mpr hp
          linarith
      · have : (1 : ℚ) ≤ r.quote_count := by
          exact_mod_cast Nat.one_le_iff_ne_zero.mpr hq
        linarith
    · have : (1 : ℚ) ≤ r.favorite_count := by
        exact_mod_cast Nat.one_le_iff_ne_zero.mpr hf
      linarith
  · have : (1 : ℚ) ≤ r.retweet_count := by
      exact_mod_cast Nat.one_le_iff_ne_zero.mpr hr
    linarith

theorem batchMaxVirality_nonneg (rows : List ERow) : 0 ≤ batchMaxVirality rows :=
  qmax_nonneg _

theorem one_le_batchMaxVirality_of_pos (rows : List ERow)
    (h : 0 < batchMaxVirality rows) : 1 ≤ batchMaxVirality rows := by
  unfold batchMaxVirality at h ⊢
  have hmem := qmax_mem _ h
  obtain ⟨r, -, hr⟩ := List.mem_map.mp hmem
  rw [← hr] at h ⊢
  exact one_le_viralityScore_of_pos r h

theorem followersDivisor_eq_max (r : ERow) :
    followersDivisor r = max (r.user_followers : ℚ) 1 := by
  unfold followersDivisor
  by_cases h : r.user_followers = 0
  · simp [h]
  · have h1 : (1 : ℚ) ≤ r.user_followers := by
      exact_mod_cast Nat.one_le_iff_ne_zero.mpr h
    rw [if_neg h, max_eq_left h1]

/-- The base columns are untouched by `applyEngagement`. -/
theorem applyEngagement_base (m : ℚ) (r : ERow) :
    (applyEngagement m r).retweet_count = r.retweet_count ∧
    (applyEngagement m r).favorite_count = r.favorite_count ∧
    (applyEngagement m r).quote_count = r.quote_count ∧
    (applyEngagement m r).reply_count = r.reply_count ∧
    (applyEngagement m r).user_followers = r.user_followers :=
  ⟨rfl, rfl, rfl, rfl, rfl⟩

/-- Claim C5: each record's `total_engagement` is the raw unweighted sum
of the four interaction counts, and `engagement_rate` equals
`total_engagement / max(followers, 1) * 100`; in particular a record with
0 followers gets `total_engagement / 1 * 100`, with no division by
zero. -/
theorem c5_engagement_rate (rows : List ERow) (r : ERow)
    (h : r ∈ calculate_engagement_metrics rows) :
    r.total_engagement =
      (r.retweet_count : ℚ) + r.favorite_count + r.quote_count + r.reply_count ∧
    r.engagement_rate = r.total_engagement / max (r.user_followers : ℚ) 1 * 100 ∧
    (r.user_followers = 0 → r.engagement_rate = r.total_engagement / 1 * 100) := by
  obtain ⟨r0, -, hr0⟩ := List.mem_map.mp h
  subst hr0
  refine ⟨rfl, ?_, ?_⟩
  · show totalEngagement r0 / followersDivisor r0 * 100 = _
    rw [followersDivisor_eq_max]
    rfl
  · intro hf
    have hf0 : r0.user_followers = 0 := hf
    show totalEngagement r0 / followersDivisor r0 * 100 = _
    unfold followersDivisor
    rw [if_pos hf0]
    rfl

/-- A one-line row builder for the concrete example tables. -/
def wRow (id txt : String) (rt fav rep q fol : Nat) : ERow :=
  { tweet_id := id, text := txt, created_at := ⟨2024, 5, 1, 10, 2⟩,
    retweet_count := rt, favorite_count := fav, reply_count := rep,
    quote_count := q, user_followers := fol }

/-- Witness for C5 at a single zero-follower record. -/
theorem c5_engagement_rate_witness :
    (applyEngagement (batchMaxVirality [wRow "1" "a" 2 3 4 5 0])
        (wRow "1" "a" 2 3 4 5 0)).engagement_rate =
      (applyEngagement (batchMaxVirality [wRow "1" "a" 2 3 4 5 0])
          (wRow "1" "a" 2 3 4 5 0)).total_engagement / 1 * 100 :=
  (c5_engagement_rate [wRow "1" "a" 2 3 4 5 0] _
      (by simp [calculate_engagement_metrics])).2.2 rfl

/-- Claim C4: each record's `virality_score` is
`retweets*3 + likes*1 + quotes*2 + replies*1.5`; when the batch maximum
virality is 0 every normalized score is 0, and otherwise each normalized
score equals `virality_score / max(batch_max, 1) * 100` and the maximum
normalized score of the batch is exactly 100. -/
theorem c4_virality_normalization (rows : List ERow) :
    (∀ r ∈ calculate_engagement_metrics rows,
      r.virality_score =
        (r.retweet_count : ℚ) * 3 + r.favorite_count * 1 + r.quote_count * 2 +
          r.reply_count * (3 / 2) ∧
      (batchMaxVirality rows = 0 → r.virality_score_normalized = 0) ∧
      (batchMaxVirality rows ≠ 0 →
        r.virality_score_normalized =
          r.virality_score / max (batchMaxVirality rows) 1 * 100)) ∧
    (batchMaxVirality rows ≠ 0 →
      qmax ((calculate_engagement_metrics rows).map
          (fun r => r.virality_score_normalized)) = 100) := by
  constructor
  · intro r h
    obtain ⟨r0, -, hr0⟩ := List.mem_map.mp h
    subst hr0
    refine ⟨rfl, ?_, ?_⟩
    · intro h0
      show (if 0 < batchMaxVirality rows then _ else (0 : ℚ)) = 0
      rw [h0]
      norm_num
    · intro h0
      have hpos : 0 < batchMaxVirality rows :=
        lt_of_le_of_ne (batchMaxVirality_nonneg rows) (Ne.symm h0)
      have h1 : 1 ≤ batchMaxVirality rows :=
        one_le_batchMaxVirality_of_pos rows hpos
      show (if 0 < batchMaxVirality rows then
              viralityScore r0 / batchMaxVirality rows * 100 else (0 : ℚ)) = _
      rw [if_pos hpos, max_eq_left h1]
      rfl
  · intro h0
    have hpos : 0 < batchMaxVirality rows :=
      lt_of_le_of_ne (batchMaxVirality_nonneg rows) (Ne.symm h0)
    unfold calculate_engagement_metrics
    rw [List.map_map]
    have hfun : ((fun r => r.virality_score_normalized) ∘
          applyEngagement (batchMaxVirality rows)) =
        (fun r => viralityScore r * (100 / batchMaxVirality rows)) := by
      funext r
      show (if 0 < batchMaxVirality rows then
              viralityScore r / batchMaxVirality rows * 100 else (0 : ℚ)) = _
      rw [if_pos hpos]
      field_simp
    rw [hfun]
    have hcomp : (rows.map (fun r => viralityScore r * (100 / batchMaxVirality rows))) =
        ((rows.map viralityScore).map (fun x => x * (100 / batchMaxVirality rows))) := by
      rw [List.map_map]
      rfl
    rw [hcomp, qmax_mul _ _ (by positivity)]
    show batchMaxVirality rows * (100 / batchMaxVirality rows) = 100
    field_simp

/-- Witness for C4 on a two-row batch with maximum virality 30: the
batch maximum normalized score is exactly 100. -/
theorem c4_virality_normalization_witness :
    batchMaxVirality [wRow "1" "a" 10 0 0 0 7, wRow "2" "b" 1 0 0 0 5] ≠ 0 ∧
    qmax ((calculate_engagement_metrics
        [wRow "1" "a" 10 0 0 0 7, wRow "2" "b" 1 0 0 0 5]).map
        (fun r => r.virality_score_normalized)) = 100 := by
  have hne : batchMaxVirality [wRow "1" "a" 10 0 0 0 7, wRow "2" "b" 1 0 0 0 5] ≠ 0 := by
    norm_num [batchMaxVirality, qmax, viralityScore, wRow, max_def]
  exact ⟨hne, (c4_virality_normalization _).2 hne⟩

/-! ## Claim C8 — idempotence of the cleaner -/

/-- The per-row effect of one `clean_topic_data` pass on a surviving row,
given `m`, the batch maximum virality at the engagement step: recompute
`text_cleaned`, `hashtags_extracted`, the engagement metrics and the time
features from the base columns. -/
def enrichRow (m : ℚ) (r : ERow) : ERow :=
  applyTime (applyEngagement m
    { r with
      text_cleaned := clean_text r.text
      hashtags_extracted := extract_hashtags r.text })

/-- The conjunction of the three row filters at the end of
`clean_topic_data` (non-empty cleaned text, follower count strictly
between 0 and 1,000,000), in the fused order. -/
def keepRow (r : ERow) : Bool :=
  decide (r.user_followers < 1000000) && decide (0 < r.user_followers) &&
    decide (0 < r.text_cleaned.length)

theorem map_id_of_mem {α : Type} (l : List α) (f : α → α)
    (h : ∀ x ∈ l, f x = x) : l.map f = l := by
  induction l with
  | nil => rfl
  | cons x t ih =>
    simp only [List.map_cons]
    rw [h x (by simp), ih (fun y hy => h y (by simp [hy]))]

theorem batchMaxVirality_map_maps (l : List ERow) :
    batchMaxVirality
        ((l.map (fun r => { r with text_cleaned := clean_text r.text })).map
          (fun r => { r with hashtags_extracted := extract_hashtags r.text })) =
      batchMaxVirality l := by
  unfold batchMaxVirality
  rw [List.map_map, List.map_map]
  rfl

/-- `clean_topic_data` on a non-empty table, in composed form: one pass
of deduplication, per-row enrichment against the pre-filter batch
maximum virality, then the row filters. -/
theorem clean_topic_data_eq (rows : List ERow) (h : rows.isEmpty = false) :
    clean_topic_data rows =
      ((dedupById rows).map
          (enrichRow (batchMaxVirality (dedupById rows)))).filter keepRow := by
  unfold clean_topic_data calculate_engagement_metrics add_time_features
  rw [h]
  simp only [remove_duplicates_enabled, clean_text_enabled,
    extract_hashtags_enabled, calculate_engagement_enabled, if_true,
    Bool.false_eq_true, if_false]
  rw [batchMaxVirality_map_maps, List.filter_filter, List.filter_filter,
    List.map_map, List.map_map, List.map_map]
  rfl

theorem clean_topic_data_of_isEmpty (l : List ERow) (h : l.isEmpty = true) :
    clean_topic_data l = l := by
  unfold clean_topic_data
  rw [h]
  simp

theorem dedup_aux_id_not_seen :
    ∀ (seen : List String) (l : List ERow) (r : ERow),
      r ∈ dedup_aux seen l → r.tweet_id ∉ seen := by
  intro seen l
  induction l generalizing seen with
  | nil => intro r hr; simp [dedup_aux] at hr
  | cons x t ih =>
    intro r hr
    simp only [dedup_aux] at hr
    by_cases hx : x.tweet_id ∈ seen
    · rw [if_pos hx] at hr
      exact ih seen r hr
    · rw [if_neg hx] at hr
      rcases List.mem_cons.mp hr with rfl | hm
      · exact hx
      · intro hseen
        exact ih _ r hm (List.mem_cons_of_mem _ hseen)

theorem dedup_aux_nodup :
    ∀ (seen : List String) (l : List ERow),
      ((dedup_aux seen l).map (fun r => r.tweet_id)).Nodup := by
  intro seen l
  induction l generalizing seen with
  | nil => simp [dedup_aux]
  | cons x t ih =>
    simp only [dedup_aux]
    by_cases hx : x.tweet_id ∈ seen
    · rw [if_pos hx]
      exact ih seen
    · rw [if_neg hx]
      simp only [List.map_cons, List.nodup_cons]
      refine ⟨?_, ih _⟩
      intro hmem
      obtain ⟨r, hr, hid⟩ := List.mem_map.mp hmem
      exact dedup_aux_id_not_seen _ _ r hr (by rw [hid]; exact List.mem_cons_self _ _)

theorem dedupById_nodup (l : List ERow) :
    ((dedupById l).map (fun r => r.tweet_id)).Nodup :=
  dedup_aux_nodup [] l

theorem dedup_aux_eq_self :
    ∀ (seen : List String) (l : List ERow),
      (l.map (fun r => r.tweet_id)).Nodup → (∀ r ∈ l, r.tweet_id ∉ seen) →
      dedup_aux seen l = l := by
  intro seen l
  induction l generalizing seen with
  | nil => intro _ _; rfl
  | cons x t ih =>
    intro hnd hdisj
    simp only [List.map_cons, List.nodup_cons] at hnd
    simp only [dedup_aux]
    rw [if_neg (hdisj x (by simp))]
    congr 1
    refine ih _ hnd.2 ?_
    intro r hr
    simp only [List.mem_cons]
    rintro (hid | hseen)
    · exact hnd.1 (hid ▸ List.mem_map_of_mem _ hr)
    · exact hdisj r (by simp [hr]) hseen

theorem dedupById_eq_self (l : List ERow)
    (h : (l.map (fun r => r.tweet_id)).Nodup) : dedupById l = l :=
  dedup_aux_eq_self [] l h (by simp)

theorem enrichRow_enrichRow (m m2 : ℚ) (r : ERow) :
    enrichRow m (enrichRow m2 r) = enrichRow m r := rfl

theorem enrichRow_tweet_id (m : ℚ) (r : ERow) :
    (enrichRow m r).tweet_id = r.tweet_id := rfl

/-- The identifiers of a cleaned table are pairwise distinct. -/
theorem clean_topic_data_nodup (rows : List ERow) (h : rows.isEmpty = false) :
    ((clean_topic_data rows).map (fun r => r.tweet_id)).Nodup := by
  rw [clean_topic_data_eq rows h]
  have hsub :=
    (List.filter_sublist (p := keepRow)
        ((dedupById rows).map
          (enrichRow (batchMaxVirality (dedupById rows))))).map
      (fun r : ERow => r.tweet_id)
  refine List.Nodup.sublist hsub ?_
  rw [List.map_map]
  exact dedupById_nodup rows

/-- Claim C8 as amended: `clean_topic_data` applied to its own output
returns it unchanged provided the maximum virality score among the
surviving rows equals the pre-filter batch maximum that normalized them
(in particular whenever the maximum-virality row survives the filters);
when a filter removes every row attaining the batch maximum,
`virality_score_normalized` is renormalized against the surviving
maximum and the tables differ in that column alone. -/
theorem c8_clean_idempotent_conditional (rows : List ERow)
    (h : batchMaxVirality (clean_topic_data rows) =
      batchMaxVirality (dedupById rows)) :
    clean_topic_data (clean_topic_data rows) = clean_topic_data rows := by
  by_cases hrows : rows.isEmpty
  · rw [clean_topic_data_of_isEmpty rows hrows,
      clean_topic_data_of_isEmpty rows hrows]
  · have hrows2 : rows.isEmpty = false := by
      cases hr : rows.isEmpty
      · rfl
      · exact absurd hr hrows
    have hO := clean_topic_data_eq rows hrows2
    by_cases hOe : (clean_topic_data rows).isEmpty
    · exact clean_topic_data_of_isEmpty _ hOe
    · have hOe2 : (clean_topic_data rows).isEmpty = false := by
        cases hr : (clean_topic_data rows).isEmpty
        · rfl
        · exact absurd hr hOe
      rw [clean_topic_data_eq (clean_topic_data rows) hOe2]
      rw [dedupById_eq_self _ (clean_topic_data_nodup rows hrows2), h]
      have hmap : (clean_topic_data rows).map
          (enrichRow (batchMaxVirality (dedupById rows))) =
          clean_topic_data rows := by
        refine map_id_of_mem _ _ ?_
        intro x hx
        rw [hO] at hx
        obtain ⟨r0, -, rfl⟩ := List.mem_map.mp (List.mem_of_mem_filter hx)
        exact enrichRow_enrichRow _ _ r0
      rw [hmap]
      refine List.filter_eq_self.mpr ?_
      intro x hx
      rw [hO] at hx
      exact List.of_mem_filter hx

/-- Counterexample to claim C8: the two-row table with a maximum-virality
row (virality 30) that the zero-follower filter removes.  The first clean
normalizes the surviving row to `3 / 30 * 100 = 10`; cleaning the already
cleaned one-row table renormalizes it to `3 / 3 * 100 = 100`, so the
second pass does not return an identical table. -/
theorem c8_counterexample :
    clean_topic_data
        (clean_topic_data [wRow "1" "a" 10 0 0 0 0, wRow "2" "b" 1 0 0 0 5]) ≠
      clean_topic_data [wRow "1" "a" 10 0 0 0 0, wRow "2" "b" 1 0 0 0 5] := by
  have hct : ∀ s : String, s = "a" ∨ s = "b" → clean_text s = s := by
    rintro s (rfl | rfl) <;>
      simp [clean_text, stripUrls, urlStart, collapseWs, collapseStep,
        isWordChar, isNonSpace, List.asString]
  norm_num +decide [clean_topic_data, remove_duplicates_enabled,
    clean_text_enabled, extract_hashtags_enabled, calculate_engagement_enabled,
    dedupById, dedup_aux, calculate_engagement_metrics, add_time_features,
    batchMaxVirality, qmax, viralityScore, applyEngagement, applyTime,
    totalEngagement, followersDivisor, hct, extract_hashtags, findHashtags,
    categorize_time_period, dayName, wRow, ERow.mk.injEq, List.filter,
    Function.comp]

/-- Witness for C8's amended statement at a one-row table whose
maximum-virality row survives: cleaning is then idempotent. -/
theorem c8_clean_idempotent_conditional_witness :
    batchMaxVirality (clean_topic_data [wRow "2" "b" 1 0 0 0 5]) =
      batchMaxVirality (dedupById [wRow "2" "b" 1 0 0 0 5]) ∧
    clean_topic_data (clean_topic_data [wRow "2" "b" 1 0 0 0 5]) =
      clean_topic_data [wRow "2" "b" 1 0 0 0 5] := by
  have hct : clean_text "b" = "b" := by
    simp [clean_text, stripUrls, urlStart, collapseWs, collapseStep,
      isWordChar, isNonSpace, List.asString]
  have hmax : batchMaxVirality (clean_topic_data [wRow "2" "b" 1 0 0 0 5]) =
      batchMaxVirality (dedupById [wRow "2" "b" 1 0 0 0 5]) := by
    norm_num +decide [clean_topic_data, remove_duplicates_enabled,
      clean_text_enabled, extract_hashtags_enabled, calculate_engagement_enabled,
      dedupById, dedup_aux, calculate_engagement_metrics, add_time_features,
      batchMaxVirality, qmax, viralityScore, applyEngagement, applyTime,
      totalEngagement, followersDivisor, hct, extract_hashtags, findHashtags,
      categorize_time_period, dayName, wRow, List.filter, Function.comp]
  exact ⟨hmax, c8_clean_idempotent_conditional _ hmax⟩

end SMA
